import Mathlib

/-!
Verification of the request-lifecycle tracking engine of node-network-inspect.

The development shallowly embeds the code of src/src/RequestTracker.ts,
src/src/index.ts and the RequestBase / NodeHttpRequest adapter layer
(src/unnamed/part_000). Pure record construction becomes Lean functions;
the per-request tracker becomes an explicit state machine driven by a list
of canonical events; timestamps (wall clock, hrtime) are real-time values
and are threaded as opaque string/number parameters where a record format
depends on them.
-/

namespace NodeNetworkInspect

/-! ## Header values (mapHeaders, RequestTracker.ts lines 33-42 and part_000 lines 194-203)

A JavaScript OutgoingHttpHeaders value is a string, a number, an array of
strings, or undefined. -/

inductive HeaderValue where
  | str (s : String)
  | num (n : Int)
  | strs (l : List String)
  | undef
deriving DecidableEq

/-- JavaScript value.toString() for a defined header value: numbers print in
decimal, arrays join their elements with a comma. For an undefined value the
expression would be the string "undefined" (never reached by mapHeaders). -/
def hvToString : HeaderValue → String
  | HeaderValue.str s => s
  | HeaderValue.num n => toString n
  | HeaderValue.strs l => String.intercalate "," l
  | HeaderValue.undef => "undefined"

def isUndefHV : HeaderValue → Bool
  | HeaderValue.undef => true
  | _ => false

def isStringHV : HeaderValue → Bool
  | HeaderValue.str _ => true
  | _ => false

/-- mapHeaders: iterate the header entries; `continue` on an undefined value,
otherwise store value.toString(). Headers are modelled as an association list
(Object.entries of a JS object yields unique keys in insertion order). -/
def mapHeaders : List (String × HeaderValue) → List (String × String)
  | [] => []
  | (k, v) :: rest =>
    if isUndefHV v then mapHeaders rest
    else (k, hvToString v) :: mapHeaders rest

/-! ## Protocol records (the DevTools Network events the tracker emits)

Each record also carries a timestamp in the source; timestamps are
real-clock values with no behavioral content for the claims below and are
omitted from the record model (the summary-log format, which does render
clock values, threads them as explicit string parameters instead). -/

structure RequestData where
  headers : List (String × HeaderValue)
  method : String
  postData : String
  url : String
deriving DecidableEq

structure ResponseData where
  url : String
  status : Nat
  statusText : String
  headers : List (String × String)
  connectionReused : Bool
  connectionId : Nat
  requestHeaders : List (String × String)
deriving DecidableEq

inductive Record where
  | requestWillBeSent (requestId : String) (request : RequestData)
  | responseReceived (requestId : String) (response : ResponseData)
  | dataReceived (requestId : String) (dataLength : Nat) (encodedDataLength : Nat)
  | loadingFinished (requestId : String) (encodedDataLength : Nat)
  | loadingFailed (requestId : String) (type : String) (errorText : String) (canceled : Bool)
deriving DecidableEq

def isRequestWillBeSent : Record → Bool
  | Record.requestWillBeSent _ _ => true
  | _ => false

def isResponseReceived : Record → Bool
  | Record.responseReceived _ _ => true
  | _ => false

def isDataReceived : Record → Bool
  | Record.dataReceived _ _ _ => true
  | _ => false

def isLoadingFinished : Record → Bool
  | Record.loadingFinished _ _ => true
  | _ => false

def isLoadingFailed : Record → Bool
  | Record.loadingFailed _ _ _ _ => true
  | _ => false

def countRWBS (rs : List Record) : Nat := rs.countP (fun r => isRequestWillBeSent r)

def countLoadingFailed (rs : List Record) : Nat := rs.countP (fun r => isLoadingFailed r)

def countLF (rs : List Record) : Nat := rs.countP (fun r => isLoadingFinished r)

def dataLenOf : Record → Nat
  | Record.dataReceived _ n _ => n
  | _ => 0

/-- Sum of the dataLength fields of the DataReceived records in a list. -/
def dataSum (rs : List Record) : Nat := (rs.map dataLenOf).sum

/-! ## The per-request tracker (RequestTracker.ts) -/

/-- A JS Error as the failure paths see it: only err.code is read by
constructFailureInfo (err.message is not used by the source). -/
structure ErrInfo where
  code : Option String
deriving DecidableEq

/-- new Error with no `code` property, as the abort wrapper constructs
(new Error with message "Request aborted"). -/
def abortError : ErrInfo := { code := none }

/-- The raw IncomingMessage data the response handler reads. -/
structure RespRaw where
  statusCode : Nat
  statusMessage : String
  rawHeaders : List (String × HeaderValue)
deriving DecidableEq

/-- The per-request data the tracker captures at construction: id from the
registry, the request line pieces, the raw request headers, the number of
error listeners on the request and the reusedSocket flag. -/
structure TrackerParams where
  id : Nat
  protocol : String
  host : String
  path : String
  method : String
  rawRequestHeaders : List (String × HeaderValue)
  errorListeners : Nat
  connectionReused : Bool
deriving DecidableEq

/-- url construction shared by constructRequestInfo / constructResponseInfo:
protocol + "//" + host + path. -/
def requestUrl (p : TrackerParams) : String :=
  p.protocol ++ "//" ++ p.host ++ p.path

/-- constructRequestInfo (RequestTracker.ts lines 175-201): the request part
of the RequestWillBeSent payload. The headers are taken from
request.getHeaders() with a type cast only, NOT through mapHeaders, so raw
header values flow into the record unchanged. The postData accumulation by
the write wrapper (handleRequestData) is orthogonal to every claim below and
is not modelled; postData starts as the empty string. -/
def constructRequestInfo (p : TrackerParams) : RequestData :=
  { headers := p.rawRequestHeaders
    method := p.method
    postData := ""
    url := requestUrl p }

/-- The `err && err.code` expression stringified: undefined ("undefined")
when the error or its code is absent. -/
def errCodeText : Option ErrInfo → String
  | none => "undefined"
  | some e =>
    match e.code with
    | none => "undefined"
    | some c => c

/-- constructFailureInfo (RequestTracker.ts lines 163-173): errorText is
"(unhandled) " prefixed when an error object is present and the request has
no error listeners, followed by the stringified err.code. -/
def constructFailureInfo (p : TrackerParams) (err : Option ErrInfo) (canceled : Bool) : Record :=
  Record.loadingFailed (toString p.id) "XHR"
    ((if err.isSome && p.errorListeners == 0 then "(unhandled) " else "") ++ errCodeText err)
    canceled

/-- constructResponseInfo (RequestTracker.ts lines 210-241): response headers
and the requestHeaders field both go through mapHeaders. -/
def constructResponseInfo (p : TrackerParams) (resp : RespRaw) : ResponseData :=
  { url := requestUrl p
    status := resp.statusCode
    statusText := resp.statusMessage
    headers := mapHeaders resp.rawHeaders
    connectionReused := p.connectionReused
    connectionId := p.id
    requestHeaders := mapHeaders p.rawRequestHeaders }

/-- Mutable tracker state: the `_handled` one-shot flag on requestInfo, the
once-consumption of the "error" and "response" listeners, whether the wrapped
response.push is currently installed (between the response event and its
"end"), and the running dataLength counter of handleHttpResponse. -/
structure TrackerState where
  handled : Bool
  errorSeen : Bool
  responseSeen : Bool
  inResponse : Bool
  dataLength : Nat
deriving DecidableEq

def initState : TrackerState :=
  { handled := false, errorSeen := false, responseSeen := false
    inResponse := false, dataLength := 0 }

/-- sendRequestWillBeSent (RequestTracker.ts lines 203-208): if
requestInfo._handled return; set the flag; emit Network.requestWillBeSent. -/
def sendRequestWillBeSent (p : TrackerParams) (s : TrackerState) : TrackerState × List Record :=
  if s.handled then (s, [])
  else ({ s with handled := true },
        [Record.requestWillBeSent (toString p.id) (constructRequestInfo p)])

/-- handleFailure (RequestTracker.ts lines 153-161): sendRequestWillBeSent
first, then emit Network.loadingFailed with canceled = !error. -/
def handleFailure (p : TrackerParams) (s : TrackerState) (err : Option ErrInfo) :
    TrackerState × List Record :=
  let sr := sendRequestWillBeSent p s
  (sr.1, sr.2 ++ [constructFailureInfo p err err.isNone])

/-- Canonical per-request events the tracker can observe: the SendStart
socket signal, the once-subscribed "error" and "response" request events,
calls of the wrapped response.push (chunk = none models a falsy chunk),
the response "end" event, and invocations of the wrapped request.abort. -/
inductive CanonEvent where
  | sendStart
  | errorEvt (err : Option ErrInfo)
  | responseEvt (resp : RespRaw)
  | push (chunk : Option Nat)
  | endEvt
  | abortCall
deriving DecidableEq

/-- Modelled from the spec: the RequestTracker constructor installs socket
phase handlers through handleSocket, whose tracker-side body is not among
the sources (only the call sites and the adapter-side socket wiring are).
Per the spec, RequestWillBeSent is withheld until SendStart fires, at which
point sendRequestWillBeSent is invoked. -/
def handleSendStart (p : TrackerParams) (s : TrackerState) : TrackerState × List Record :=
  sendRequestWillBeSent p s

/-- One canonical event processed by the tracker:
* errorEvt is consumed at most once (request.once("error", ...)) and runs
  handleFailure with canceled = !error;
* abortCall always runs the original abort and then handleFailure with
  new Error("Request aborted") (handleAbort, lines 246-253);
* responseEvt is consumed at most once (request.once("response", ...)) and
  emits Network.responseReceived, installing the wrapped push with a fresh
  dataLength counter (handleHttpResponse, lines 255-305);
* push with a truthy chunk, while the wrapper is installed, accumulates
  dataLength and emits Network.dataReceived with the chunk length;
* the response "end" event (once) restores push and emits
  Network.loadingFinished with the accumulated dataLength. -/
def step (p : TrackerParams) (s : TrackerState) : CanonEvent → TrackerState × List Record
  | CanonEvent.sendStart => handleSendStart p s
  | CanonEvent.errorEvt err =>
    if s.errorSeen then (s, [])
    else handleFailure p { s with errorSeen := true } err
  | CanonEvent.abortCall => handleFailure p s (some abortError)
  | CanonEvent.responseEvt resp =>
    if s.responseSeen then (s, [])
    else ({ s with responseSeen := true, inResponse := true, dataLength := 0 },
          [Record.responseReceived (toString p.id) (constructResponseInfo p resp)])
  | CanonEvent.push chunk =>
    match chunk with
    | none => (s, [])
    | some n =>
      if s.inResponse then
        ({ s with dataLength := s.dataLength + n },
         [Record.dataReceived (toString p.id) n n])
      else (s, [])
  | CanonEvent.endEvt =>
    if s.inResponse then
      ({ s with inResponse := false }, [Record.loadingFinished (toString p.id) s.dataLength])
    else (s, [])

/-- The protocol records a tracker in state s emits while consuming a list of
canonical events. -/
def runFrom (p : TrackerParams) (s : TrackerState) : List CanonEvent → List Record
  | [] => []
  | e :: es =>
    let r := step p s e
    r.2 ++ runFrom p r.1 es

/-- The protocol records a freshly constructed tracker emits for a list of
canonical events. -/
def runTracker (p : TrackerParams) (es : List CanonEvent) : List Record :=
  runFrom p initState es

/-! ## Session id assignment (src/src/index.ts)

`let requestId = 0` lives at module scope; start() never resets it, and both
requestStartHandler and undiciRequestStartHandler assign with requestId++. -/

/-- The module-scope counter initializer: let requestId = 0. -/
def moduleInitialRequestId : Nat := 0

/-- requestId++ as the start handlers use it: yields the current value and
the incremented counter. -/
def assignId (requestId : Nat) : Nat × Nat := (requestId, requestId + 1)

/-- The ids assigned to n requests started while the module counter holds g,
together with the counter value afterwards. start() does not touch the
counter, so a session simply continues from wherever the counter stands. -/
def sessionIds : Nat → Nat → List Nat × Nat
  | g, 0 => ([], g)
  | g, n + 1 =>
    let a := assignId g
    let rest := sessionIds a.2 n
    (a.1 :: rest.1, rest.2)

/-! ## The per-request canonical event bus (RequestBase, part_000 lines 145-192) -/

/-- The closed set of canonical event kinds of RequestEventCallbacks. -/
inductive EventKind where
  | failure
  | dnsStart
  | connectStart
  | sendStart
  | sendEnd
  | responseReceived
  | dataReceived
  | requestFinished
deriving DecidableEq

/-- RequestBase bus state: events holds, per kind, the argument tuple of the
last dispatch (the JS check `if (this.events[event])` is truthiness of the
stored args array, which is present exactly when a dispatch occurred);
subscribers holds, per kind, the listener list in subscription order.
Listener invocations are modelled as (listener, payload) pairs returned
alongside the updated bus. -/
structure EventBus (L P : Type) where
  events : EventKind → Option P
  subscribers : EventKind → List L

/-- addEventListener: append the listener to the kind's subscriber list;
if the event has already occurred, immediately call the new listener with
the stored arguments. -/
def addEventListener (b : EventBus L P) (k : EventKind) (l : L) :
    EventBus L P × List (L × P) :=
  let b2 : EventBus L P :=
    { b with subscribers := fun k2 => if k2 = k then b.subscribers k ++ [l] else b.subscribers k2 }
  match b.events k with
  | some args => (b2, [(l, args)])
  | none => (b2, [])

/-- removeEventListener: splice out the first occurrence of the listener, a
no-op when it is not subscribed. -/
def removeEventListener [DecidableEq L] (b : EventBus L P) (k : EventKind) (l : L) :
    EventBus L P :=
  { b with subscribers := fun k2 =>
      if k2 = k then (b.subscribers k).erase l else b.subscribers k2 }

/-- dispatchEvent: store the arguments for late subscribers, then invoke
every current subscriber of the kind in list (= subscription) order. -/
def dispatchEvent (b : EventBus L P) (k : EventKind) (args : P) :
    EventBus L P × List (L × P) :=
  ({ b with events := fun k2 => if k2 = k then some args else b.events k2 },
   (b.subscribers k).map (fun l => (l, args)))

/-! ## The abort/destroy wrappers of NodeHttpRequest (part_000 lines 234-246)

The wrapper calls the original method and then dispatches a failure event;
the original method is modelled as a state transformer on the raw request
and the dispatched failures as an appended log of their messages. -/

def wrappedAbort (origAbort : α → α) : α × List String → α × List String
  | (st, evts) => (origAbort st, evts ++ ["Request aborted"])

def wrappedDestroy (origDestroy : α → α) : α × List String → α × List String
  | (st, evts) => (origDestroy st, evts ++ ["Request destroyed"])

/-! ## The LogSummary sink (RequestTracker.emit, RequestTracker.ts lines 97-119)

secondsSinceInit().toFixed(3) and the LoadingFinished duration string
((timestamp - startTime.timestamp) * 1000).toFixed(3) are clock-derived and
passed in as the opaque parameters elapsed and durMs. -/

/-- The line prefix common to every summary line. -/
def summaryBase (elapsed : String) (id : Nat) (name : String) : String :=
  "[" ++ elapsed ++ "] " ++ toString id ++ " " ++ name

/-- The LogSummary branch of emit: some line for Network.requestWillBeSent
(detail: request url), Network.loadingFailed (detail: errorText) and
Network.loadingFinished (detail: encodedDataLength, " Bytes \ttook ", the
duration, "ms"); every other event name returns before logging. -/
def logSummaryLine (elapsed durMs : String) (id : Nat) : Record → Option String
  | Record.requestWillBeSent _ req =>
    some (summaryBase elapsed id "Network.requestWillBeSent" ++ " " ++ req.url)
  | Record.loadingFailed _ _ errorText _ =>
    some (summaryBase elapsed id "Network.loadingFailed" ++ " " ++ errorText)
  | Record.loadingFinished _ n =>
    some (summaryBase elapsed id "Network.loadingFinished" ++ " " ++ toString n
      ++ " Bytes \ttook " ++ durMs ++ "ms")
  | _ => none

/-- The kinds for which the summary sink logs a line. -/
def summaryKind (r : Record) : Bool :=
  isRequestWillBeSent r || isLoadingFailed r || isLoadingFinished r

/-- The LoadingFinished summary line as the specification words it:
"[elapsed] id eventName bytes Bytes\ttook msms" with no space between
"Bytes" and the tab. Written from the spec for comparison with the line the
code builds. -/
def specLoadingFinishedLine (elapsed durMs : String) (id : Nat) (n : Nat) : String :=
  summaryBase elapsed id "Network.loadingFinished" ++ " " ++ toString n
    ++ " Bytes\ttook " ++ durMs ++ "ms"

/-! ## Session lifecycle (start/stop, src/src/index.ts lines 97-249)

diagnostics_channel subscriptions are a process-wide ordered list of
(channel, listener) pairs; a session's eight handlers are tagged with one
listener token h. unsubscribe removes the first matching pair and is a
non-throwing no-op on a miss. The inspector session connect/disconnect is a
Bool, and logger.log lines are accumulated in order. -/

def removeFirstSub : List (String × Nat) → String × Nat → List (String × Nat)
  | [], _ => []
  | x :: xs, y => if x = y then xs else x :: removeFirstSub xs y

def dcSubscribe (subs : List (String × Nat)) (ch : String) (h : Nat) : List (String × Nat) :=
  subs ++ [(ch, h)]

def dcUnsubscribe (subs : List (String × Nat)) (ch : String) (h : Nat) : List (String × Nat) :=
  removeFirstSub subs (ch, h)

/-- The eight diagnostics_channel channels start() subscribes and stop()
unsubscribes, in source order. -/
def sessionChannels : List String :=
  ["http.client.request.start", "undici:request:create", "undici:request:bodySent",
   "undici:request:headers", "undici:client:sendHeaders", "undici:request:trailers",
   "undici:request:error", "undici:client:connectError"]

structure SessionWorld where
  subs : List (String × Nat)
  connected : Bool
  log : List String
deriving DecidableEq

/-- start(): subscribe all eight channels with this session's handlers,
connect the inspector session, log "Tracing started". -/
def startSession (w : SessionWorld) (h : Nat) : SessionWorld :=
  { subs := sessionChannels.foldl (fun s ch => dcSubscribe s ch h) w.subs
    connected := true
    log := w.log ++ ["Tracing started"] }

/-- stop(): unsubscribe all eight channels, disconnect the inspector
session, log "Tracing stopped". There is no closed flag, so every call
performs all of this again. -/
def stopSession (w : SessionWorld) (h : Nat) : SessionWorld :=
  { subs := sessionChannels.foldl (fun s ch => dcUnsubscribe s ch h) w.subs
    connected := false
    log := w.log ++ ["Tracing stopped"] }

/-! ## Concrete fixtures used by counterexamples and witnesses -/

def exParams : TrackerParams :=
  { id := 0, protocol := "http:", host := "example.test", path := "/a", method := "GET"
    rawRequestHeaders := [], errorListeners := 0, connectionReused := false }

def exResp : RespRaw :=
  { statusCode := 200, statusMessage := "OK"
    rawHeaders := [("content-type", HeaderValue.str "text/html")] }

/-- A request carrying a numeric header value (e.g. Content-Length: 42). -/
def numHeaderParams : TrackerParams :=
  { id := 1, protocol := "http:", host := "example.test", path := "/n", method := "GET"
    rawRequestHeaders := [("content-length", HeaderValue.num 42)], errorListeners := 1
    connectionReused := false }

/-! ## Generic lemmas about tracker runs -/

/-- The events that route into sendRequestWillBeSent: the (spec-modelled)
SendStart trigger, and the failure paths, which send RequestWillBeSent
first. -/
def isSendTrigger : CanonEvent → Bool
  | CanonEvent.sendStart => true
  | CanonEvent.errorEvt _ => true
  | CanonEvent.abortCall => true
  | _ => false

theorem countRWBS_append (a b : List Record) :
    countRWBS (a ++ b) = countRWBS a + countRWBS b := by
  simp [countRWBS, List.countP_append]

theorem runFrom_cons (p : TrackerParams) (s : TrackerState) (e : CanonEvent)
    (es : List CanonEvent) :
    runFrom p s (e :: es) = (step p s e).2 ++ runFrom p (step p s e).1 es := rfl

theorem step_handled (p : TrackerParams) (s : TrackerState) (e : CanonEvent)
    (hinv : s.errorSeen = true → s.handled = true) :
    (step p s e).1.handled = (s.handled || isSendTrigger e) := by
  cases e with
  | sendStart =>
    cases hh : s.handled <;>
      simp [step, handleSendStart, sendRequestWillBeSent, hh, isSendTrigger]
  | errorEvt err =>
    cases he : s.errorSeen
    · cases hh : s.handled <;>
        simp [step, handleFailure, sendRequestWillBeSent, he, hh, isSendTrigger]
    · simp [step, he, isSendTrigger, hinv he]
  | abortCall =>
    cases hh : s.handled <;>
      simp [step, handleFailure, sendRequestWillBeSent, hh, isSendTrigger]
  | responseEvt resp =>
    cases hr : s.responseSeen <;> simp [step, hr, isSendTrigger]
  | push chunk =>
    cases chunk with
    | none => simp [step, isSendTrigger]
    | some n => cases hr : s.inResponse <;> simp [step, hr, isSendTrigger]
  | endEvt =>
    cases hr : s.inResponse <;> simp [step, hr, isSendTrigger]

theorem step_errorSeen_handled (p : TrackerParams) (s : TrackerState) (e : CanonEvent)
    (hinv : s.errorSeen = true → s.handled = true) :
    (step p s e).1.errorSeen = true → (step p s e).1.handled = true := by
  cases e with
  | sendStart =>
    cases hh : s.handled <;> simp [step, handleSendStart, sendRequestWillBeSent, hh]
  | errorEvt err =>
    cases he : s.errorSeen
    · cases hh : s.handled <;>
        simp [step, handleFailure, sendRequestWillBeSent, he, hh]
    · simp [step, he, hinv he]
  | abortCall =>
    cases hh : s.handled <;>
      simp [step, handleFailure, sendRequestWillBeSent, hh]
  | responseEvt resp =>
    cases hr : s.responseSeen <;> simpa [step, hr] using hinv
  | push chunk =>
    cases chunk with
    | none => simpa [step] using hinv
    | some n => cases hr : s.inResponse <;> simpa [step, hr] using hinv
  | endEvt =>
    cases hr : s.inResponse <;> simpa [step, hr] using hinv

theorem countRWBS_step (p : TrackerParams) (s : TrackerState) (e : CanonEvent)
    (hinv : s.errorSeen = true → s.handled = true) :
    countRWBS (step p s e).2 =
      if s.handled then 0 else if isSendTrigger e then 1 else 0 := by
  cases e with
  | sendStart =>
    cases hh : s.handled <;>
      simp [step, handleSendStart, sendRequestWillBeSent, hh, isSendTrigger, countRWBS,
        isRequestWillBeSent]
  | errorEvt err =>
    cases he : s.errorSeen
    · cases hh : s.handled <;>
        simp [step, handleFailure, sendRequestWillBeSent, constructFailureInfo, he, hh,
          isSendTrigger, countRWBS, isRequestWillBeSent, isLoadingFailed]
    · simp [step, he, hinv he, isSendTrigger, countRWBS]
  | abortCall =>
    cases hh : s.handled <;>
      simp [step, handleFailure, sendRequestWillBeSent, constructFailureInfo, hh,
        isSendTrigger, countRWBS, isRequestWillBeSent]
  | responseEvt resp =>
    cases hr : s.responseSeen <;> cases hh : s.handled <;>
      simp [step, hr, hh, isSendTrigger, countRWBS, isRequestWillBeSent]
  | push chunk =>
    cases chunk with
    | none => cases hh : s.handled <;> simp [step, hh, isSendTrigger, countRWBS]
    | some n =>
      cases hr : s.inResponse <;> cases hh : s.handled <;>
        simp [step, hr, hh, isSendTrigger, countRWBS, isRequestWillBeSent]
  | endEvt =>
    cases hr : s.inResponse <;> cases hh : s.handled <;>
      simp [step, hr, hh, isSendTrigger, countRWBS, isRequestWillBeSent]

theorem countRWBS_runFrom (p : TrackerParams) :
    ∀ (es : List CanonEvent) (s : TrackerState), (s.errorSeen = true → s.handled = true) →
    countRWBS (runFrom p s es) =
      if s.handled then 0 else if es.any isSendTrigger then 1 else 0 := by
  intro es
  induction es with
  | nil =>
    intro s _
    cases hh : s.handled <;> simp [runFrom, countRWBS, hh]
  | cons e es ih =>
    intro s hinv
    rw [runFrom_cons, countRWBS_append, countRWBS_step p s e hinv,
      ih (step p s e).1 (step_errorSeen_handled p s e hinv), step_handled p s e hinv]
    cases hh : s.handled <;> cases ht : isSendTrigger e <;>
      simp [hh, ht, List.any_cons]

/-- Claim C1: for every request tracked in a session, RequestWillBeSent is emitted
exactly once: it is withheld until a SendStart-equivalent signal (or a Failure,
which sends it first) fires, and the one-shot `_handled` flag makes every repeated
trigger a no-op. Over an arbitrary canonical event sequence the tracker emits
exactly one RequestWillBeSent record when some trigger occurs and none otherwise. -/
theorem c1_requestWillBeSent_exactly_once (p : TrackerParams) (es : List CanonEvent) :
    countRWBS (runTracker p es) = if es.any isSendTrigger then 1 else 0 := by
  rw [runTracker, countRWBS_runFrom p es initState (by simp [initState])]
  simp [initState]

/-! ## Claim C2: terminal events do not gate later emissions -/

def isTerminalRecord (r : Record) : Bool := isLoadingFinished r || isLoadingFailed r

/-- The records emitted strictly after the first terminal record. -/
def afterFirstTerminal : List Record → List Record
  | [] => []
  | r :: rs => if isTerminalRecord r then rs else afterFirstTerminal rs

/-- A successful request (response, one 10-byte chunk, end) whose wrapped abort
is invoked afterwards. -/
def c2events : List CanonEvent :=
  [CanonEvent.responseEvt exResp, CanonEvent.push (some 10), CanonEvent.endEvt,
   CanonEvent.abortCall]

/-- Claim C2 counterexample: after the terminal LoadingFinished record of a
completed request, invoking the wrapped abort still emits two further protocol
records (RequestWillBeSent, then LoadingFailed), so the claim that no further
protocol record is ever emitted after the terminal event is false. -/
theorem c2_counterexample :
    afterFirstTerminal (runTracker exParams c2events)
      = [Record.requestWillBeSent "0" (constructRequestInfo exParams),
         Record.loadingFailed "0" "XHR" "(unhandled) undefined" false]
    ∧ afterFirstTerminal (runTracker exParams c2events) ≠ [] := by
  exact ⟨by decide, by decide⟩

/-- The canonical events that reach handleFailure: a (first) error event or an
invocation of the wrapped abort. -/
def isFailureSignal : CanonEvent → Bool
  | CanonEvent.errorEvt _ => true
  | CanonEvent.abortCall => true
  | _ => false

theorem step_noop (p : TrackerParams) (s : TrackerState) (e : CanonEvent)
    (h1 : s.handled = true) (h2 : s.responseSeen = true) (h3 : s.inResponse = false)
    (he : isFailureSignal e = false) : step p s e = (s, []) := by
  cases e with
  | sendStart => simp [step, handleSendStart, sendRequestWillBeSent, h1]
  | errorEvt err => simp [isFailureSignal] at he
  | abortCall => simp [isFailureSignal] at he
  | responseEvt resp => simp [step, h2]
  | push chunk =>
    cases chunk with
    | none => rfl
    | some n => simp [step, h3]
  | endEvt => simp [step, h3]

/-- Claim C2 amended: once a request has reached a terminal state (its
RequestWillBeSent sent, its once-subscribed response consumed, and its
response stream ended), every later canonical event other than a failure
signal (a first error event or an invocation of the wrapped abort) is a no-op
and emits no protocol record; failure signals, however, still emit an
additional LoadingFailed record. -/
theorem c2_terminal_noop_amended (p : TrackerParams) (s : TrackerState)
    (es : List CanonEvent) (h1 : s.handled = true) (h2 : s.responseSeen = true)
    (h3 : s.inResponse = false) (hes : ∀ e ∈ es, isFailureSignal e = false) :
    runFrom p s es = [] := by
  induction es with
  | nil => rfl
  | cons e es ih =>
    rw [runFrom_cons, step_noop p s e h1 h2 h3 (hes e (by simp))]
    simpa using ih (fun e2 he2 => hes e2 (by simp [he2]))

theorem c2_terminal_noop_amended_witness :
    runFrom exParams
      { handled := true, errorSeen := false, responseSeen := true
        inResponse := false, dataLength := 10 }
      [CanonEvent.sendStart, CanonEvent.responseEvt exResp, CanonEvent.push (some 3),
       CanonEvent.endEvt] = [] :=
  c2_terminal_noop_amended exParams
    { handled := true, errorSeen := false, responseSeen := true
      inResponse := false, dataLength := 10 }
    [CanonEvent.sendStart, CanonEvent.responseEvt exResp, CanonEvent.push (some 3),
     CanonEvent.endEvt] rfl rfl rfl (by decide)

/-! ## Claim C3: the canceled flag of LoadingFailed -/

def isCanceledFailure : Record → Bool
  | Record.loadingFailed _ _ _ c => c
  | _ => false

/-- Claim C3 counterexample: cancelling a call before any response arrives (the
wrapped abort is invoked on a fresh tracker) emits exactly one LoadingFailed
record, but with canceled = false, because the abort wrapper passes an explicit
Error("Request aborted") into handleFailure; the claim that this scenario
yields canceled = true is false. -/
theorem c3_counterexample :
    (runTracker exParams [CanonEvent.abortCall]).countP (fun r => isLoadingFailed r) = 1
    ∧ Record.loadingFailed "0" "XHR" "(unhandled) undefined" false
        ∈ runTracker exParams [CanonEvent.abortCall]
    ∧ (∀ r ∈ runTracker exParams [CanonEvent.abortCall], isCanceledFailure r = false) := by
  exact ⟨by decide, by decide, by decide⟩

/-- Claim C3 amended: in every LoadingFailed record built by handleFailure the
canceled field is true exactly when no error object accompanies the failure;
the wrapped abort passes an explicit Error, so cancelling a call before any
response arrives yields one LoadingFailed with canceled = false, and no
ResponseReceived is ever recorded for that id. -/
theorem c3_canceled_amended (p : TrackerParams) (s : TrackerState) (err : Option ErrInfo)
    (rid t e : String) (c : Bool) :
    (Record.loadingFailed rid t e c ∈ (handleFailure p s err).2 → c = err.isNone)
    ∧ (Record.loadingFailed rid t e c ∈ runTracker p [CanonEvent.abortCall] → c = false)
    ∧ (∀ r ∈ runTracker p [CanonEvent.abortCall], isResponseReceived r = false) := by
  refine ⟨?_, ?_, ?_⟩
  · intro hmem
    unfold handleFailure at hmem
    rcases List.mem_append.1 hmem with hmem | hmem
    · unfold sendRequestWillBeSent at hmem
      split at hmem <;> simp at hmem
    · simp [constructFailureInfo] at hmem
      exact hmem.2.2.2
  · intro hmem
    simp [runTracker, runFrom, step, handleFailure, sendRequestWillBeSent, initState,
      constructFailureInfo, abortError] at hmem
    exact hmem.2.2.2
  · intro r hr
    simp [runTracker, runFrom, step, handleFailure, sendRequestWillBeSent, initState,
      constructFailureInfo, abortError] at hr
    rcases hr with rfl | rfl <;> rfl

theorem c3_canceled_amended_witness :
    Record.loadingFailed "0" "XHR" "(unhandled) undefined" false
        ∈ (handleFailure exParams initState (some abortError)).2
    ∧ (false : Bool) = (some abortError).isNone :=
  ⟨by decide,
   (c3_canceled_amended exParams initState (some abortError) "0" "XHR"
      "(unhandled) undefined" false).1 (by decide)⟩

/-! ## Claim C4: cancellation wrappers deliver one Failure per invocation -/

/-- Claim C4 counterexample: invoking the wrapped abort twice delivers two
Failure events and hence two LoadingFailed records, so the claim that exactly
one Failure event is delivered even when a cancellation method is invoked more
than once is false. -/
theorem c4_counterexample :
    countLoadingFailed (runTracker exParams [CanonEvent.abortCall, CanonEvent.abortCall]) = 2
    ∧ countLoadingFailed
        (runTracker exParams [CanonEvent.abortCall, CanonEvent.abortCall]) ≠ 1 := by
  exact ⟨by decide, by decide⟩

theorem wrappedAbort_iterate {α : Type} (f : α → α) (st : α) (n : Nat) :
    (wrappedAbort f)^[n] (st, []) = (f^[n] st, List.replicate n "Request aborted") := by
  induction n with
  | zero => simp
  | succ n ih =>
    rw [Function.iterate_succ_apply', Function.iterate_succ_apply', ih]
    simp [wrappedAbort, List.replicate_succ']

theorem countLoadingFailed_step_abort (p : TrackerParams) (s : TrackerState) :
    countLoadingFailed (step p s CanonEvent.abortCall).2 = 1 := by
  cases hh : s.handled <;>
    simp [step, handleFailure, sendRequestWillBeSent, constructFailureInfo, hh,
      countLoadingFailed, isLoadingFailed, isRequestWillBeSent]

theorem countLoadingFailed_replicate_abort (p : TrackerParams) :
    ∀ (n : Nat) (s : TrackerState),
    countLoadingFailed (runFrom p s (List.replicate n CanonEvent.abortCall)) = n := by
  intro n
  induction n with
  | zero => intro s; rfl
  | succ n ih =>
    intro s
    rw [List.replicate_succ, runFrom_cons]
    simp only [countLoadingFailed, List.countP_append]
    rw [← countLoadingFailed, ← countLoadingFailed, countLoadingFailed_step_abort, ih]
    omega

/-- Claim C4 amended: each invocation of the wrapped abort performs the original
cancellation effect and dispatches one Failure event, with no once-guard: n
invocations apply the original abort n times, dispatch n "Request aborted"
failure events, and make the tracker emit n LoadingFailed records. -/
theorem c4_abort_amended {α : Type} (f : α → α) (st : α) (n : Nat) (p : TrackerParams)
    (s : TrackerState) :
    (wrappedAbort f)^[n] (st, []) = (f^[n] st, List.replicate n "Request aborted")
    ∧ countLoadingFailed (runFrom p s (List.replicate n CanonEvent.abortCall)) = n :=
  ⟨wrappedAbort_iterate f st n, countLoadingFailed_replicate_abort p n s⟩

/-! ## Claim C5: session request ids -/

theorem sessionIds_eq (n : Nat) : ∀ g : Nat,
    sessionIds g n = ((List.range n).map (fun k => g + k), g + n) := by
  induction n with
  | zero => intro g; simp [sessionIds]
  | succ n ih =>
    intro g
    have hrec : sessionIds g (n + 1)
        = ((assignId g).1 :: (sessionIds (assignId g).2 n).1,
           (sessionIds (assignId g).2 n).2) := rfl
    have hf : ((fun k => g + k) ∘ Nat.succ) = fun k => (g + 1) + k :=
      funext (fun k => by simp only [Function.comp_apply]; omega)
    rw [hrec, List.range_succ_eq_map]
    simp only [assignId, ih (g + 1), List.map_cons, List.map_map, hf]
    refine Prod.ext (by simp) (by simp; omega)

/-- Claim C5 counterexample: the id counter is module-global and start() does
not reset it, so for a second session started after a first session consumed
one id, the first request of the second session gets id 1, not 0: its id list
is not 0..N-1. -/
theorem c5_counterexample :
    (sessionIds (sessionIds moduleInitialRequestId 1).2 1).1 = [1]
    ∧ (sessionIds (sessionIds moduleInitialRequestId 1).2 1).1 ≠ List.range 1 := by
  exact ⟨by decide, by decide⟩

/-- Claim C5 amended: ids assigned within one session are consecutive integers
starting at the current value of the process-global counter, hence unique and
strictly increasing in start order; the counter starts at 0 at module load and
is never reset, so a session's ids are exactly 0..N-1 only when no request was
started before it (in particular for the first session). -/
theorem c5_session_ids_amended (g n : Nat) :
    (sessionIds g n).1 = (List.range n).map (fun k => g + k)
    ∧ (sessionIds g n).2 = g + n
    ∧ (sessionIds g n).1.Pairwise (· < ·)
    ∧ (sessionIds g n).1.Nodup
    ∧ (sessionIds moduleInitialRequestId n).1 = List.range n := by
  have h := sessionIds_eq n g
  have h0 := sessionIds_eq n 0
  have hp : ((List.range n).map (fun k => g + k)).Pairwise (· < ·) := by
    rw [List.pairwise_map]
    exact (List.pairwise_lt_range n).imp (fun hlt => by omega)
  refine ⟨by rw [h], by rw [h], by rw [h]; exact hp,
    by rw [h]; exact hp.imp (fun hlt => Nat.ne_of_lt hlt), ?_⟩
  rw [moduleInitialRequestId, h0]
  simp

/-! ## Claim C6: the per-request event bus -/

def exBus : EventBus Nat String :=
  { events := fun _ => none, subscribers := fun _ => [] }

/-- Claim C6: on a per-request bus, a listener subscribing after a publish of
its kind is immediately invoked with the last published payload (in
particular, right after a dispatch it is invoked with that dispatch's
payload, and a second dispatch overwrites the stored payload), listeners are
stored in subscription order, and a publish invokes exactly the subscribed
listeners of that kind in that order. -/
theorem c6_bus_replay_and_order {L P : Type} (b : EventBus L P) (k : EventKind) (l : L)
    (pay pay1 pay2 : P) :
    (b.events k = some pay → (addEventListener b k l).2 = [(l, pay)])
    ∧ (addEventListener b k l).1.subscribers k = b.subscribers k ++ [l]
    ∧ (dispatchEvent b k pay).2 = (b.subscribers k).map (fun x => (x, pay))
    ∧ (dispatchEvent (dispatchEvent b k pay1).1 k pay2).1.events k = some pay2
    ∧ (addEventListener (dispatchEvent b k pay).1 k l).2 = [(l, pay)] := by
  refine ⟨?_, ?_, rfl, by simp [dispatchEvent], ?_⟩
  · intro h
    simp [addEventListener, h]
  · cases h : b.events k <;> simp [addEventListener, h]
  · simp [addEventListener, dispatchEvent]

theorem c6_bus_replay_and_order_witness :
    ((dispatchEvent exBus EventKind.sendStart "x").1.events EventKind.sendStart = some "x")
    ∧ (addEventListener (dispatchEvent exBus EventKind.sendStart "x").1
        EventKind.sendStart 3).2 = [(3, "x")] :=
  ⟨by decide,
   (c6_bus_replay_and_order (dispatchEvent exBus EventKind.sendStart "x").1
      EventKind.sendStart 3 "x" "x" "x").1 (by decide)⟩

/-! ## Claim C7: DataReceived lengths sum to the LoadingFinished length -/

theorem dataSum_append (a b : List Record) : dataSum (a ++ b) = dataSum a + dataSum b := by
  simp [dataSum]

theorem countLF_append (a b : List Record) : countLF (a ++ b) = countLF a + countLF b := by
  simp [countLF, List.countP_append]

/-- The running invariant of a tracker in state s over its future emissions F:
if the response has been consumed and ended, F holds no DataReceived and no
LoadingFinished; and every LoadingFinished value in F equals the current
dataLength counter (when a response is active) plus the DataReceived lengths
of F itself. -/
theorem c7_aux (p : TrackerParams) :
    ∀ (es : List CanonEvent) (s : TrackerState), (s.inResponse = true → s.responseSeen = true) →
    ((s.responseSeen = true ∧ s.inResponse = false) →
        dataSum (runFrom p s es) = 0 ∧ countLF (runFrom p s es) = 0)
    ∧ (∀ rid n, Record.loadingFinished rid n ∈ runFrom p s es →
        n = (if s.inResponse = true then s.dataLength else 0) + dataSum (runFrom p s es)) := by
  intro es
  induction es with
  | nil =>
    intro s _
    refine ⟨fun _ => ⟨rfl, rfl⟩, fun rid n h => absurd h (by simp [runFrom])⟩
  | cons e es ih =>
    intro s hrs
    -- the uniform argument for a step that emits no DataReceived / LoadingFinished
    -- record and leaves responseSeen, inResponse and dataLength unchanged
    have skip : ∀ (s2 : TrackerState) (out : List Record),
        step p s e = (s2, out) →
        dataSum out = 0 → countLF out = 0 →
        (∀ rid n, Record.loadingFinished rid n ∉ out) →
        s2.responseSeen = s.responseSeen → s2.inResponse = s.inResponse →
        s2.dataLength = s.dataLength →
        ((s.responseSeen = true ∧ s.inResponse = false) →
            dataSum (runFrom p s (e :: es)) = 0 ∧ countLF (runFrom p s (e :: es)) = 0)
        ∧ (∀ rid n, Record.loadingFinished rid n ∈ runFrom p s (e :: es) →
            n = (if s.inResponse = true then s.dataLength else 0)
              + dataSum (runFrom p s (e :: es))) := by
      intro s2 out hstep hd hlf hno hresp hin hdl
      have heq : runFrom p s (e :: es) = out ++ runFrom p s2 es := by
        rw [runFrom_cons, hstep]
      have hrs2 : s2.inResponse = true → s2.responseSeen = true := by
        rw [hresp, hin]; exact hrs
      have IH := ih s2 hrs2
      constructor
      · intro hterm
        have h2 := IH.1 ⟨hresp.trans hterm.1, hin.trans hterm.2⟩
        rw [heq, dataSum_append, countLF_append, hd, hlf, h2.1, h2.2]
        exact ⟨rfl, rfl⟩
      · intro rid n hm
        rw [heq] at hm
        rcases List.mem_append.1 hm with hm | hm
        · exact absurd hm (hno rid n)
        · have := IH.2 rid n hm
          rw [heq, dataSum_append, hd, hin, hdl] at *
          simpa using this
    cases e with
    | sendStart =>
      cases hh : s.handled
      · exact skip { s with handled := true }
          [Record.requestWillBeSent (toString p.id) (constructRequestInfo p)]
          (by simp [step, handleSendStart, sendRequestWillBeSent, hh])
          (by simp [dataSum, dataLenOf]) (by simp [countLF, isLoadingFinished])
          (by simp) rfl rfl rfl
      · exact skip s [] (by simp [step, handleSendStart, sendRequestWillBeSent, hh])
          rfl rfl (by simp) rfl rfl rfl
    | errorEvt err =>
      cases he : s.errorSeen
      · cases hh : s.handled
        · exact skip { s with errorSeen := true, handled := true }
            [Record.requestWillBeSent (toString p.id) (constructRequestInfo p),
             constructFailureInfo p err err.isNone]
            (by simp [step, handleFailure, sendRequestWillBeSent, he, hh])
            (by simp [dataSum, dataLenOf, constructFailureInfo])
            (by simp [countLF, isLoadingFinished, constructFailureInfo])
            (by simp [constructFailureInfo]) rfl rfl rfl
        · exact skip { s with errorSeen := true }
            [constructFailureInfo p err err.isNone]
            (by simp [step, handleFailure, sendRequestWillBeSent, he, hh])
            (by simp [dataSum, dataLenOf, constructFailureInfo])
            (by simp [countLF, isLoadingFinished, constructFailureInfo])
            (by simp [constructFailureInfo]) rfl rfl rfl
      · exact skip s [] (by simp [step, he]) rfl rfl (by simp) rfl rfl rfl
    | abortCall =>
      cases hh : s.handled
      · exact skip { s with handled := true }
          [Record.requestWillBeSent (toString p.id) (constructRequestInfo p),
           constructFailureInfo p (some abortError) false]
          (by simp [step, handleFailure, sendRequestWillBeSent, hh])
          (by simp [dataSum, dataLenOf, constructFailureInfo])
          (by simp [countLF, isLoadingFinished, constructFailureInfo])
          (by simp [constructFailureInfo]) rfl rfl rfl
      · exact skip s [constructFailureInfo p (some abortError) false]
          (by simp [step, handleFailure, sendRequestWillBeSent, hh])
          (by simp [dataSum, dataLenOf, constructFailureInfo])
          (by simp [countLF, isLoadingFinished, constructFailureInfo])
          (by simp [constructFailureInfo]) rfl rfl rfl
    | responseEvt resp =>
      cases hr : s.responseSeen
      · -- a fresh response: the wrapped push is installed with dataLength = 0
        have hstep : step p s (CanonEvent.responseEvt resp)
            = ({ s with responseSeen := true, inResponse := true, dataLength := 0 },
               [Record.responseReceived (toString p.id) (constructResponseInfo p resp)]) := by
          simp [step, hr]
        have heq : runFrom p s (CanonEvent.responseEvt resp :: es)
            = [Record.responseReceived (toString p.id) (constructResponseInfo p resp)]
              ++ runFrom p { s with responseSeen := true, inResponse := true, dataLength := 0 } es := by
          rw [runFrom_cons, hstep]
        have hin : s.inResponse = false := by
          cases hi : s.inResponse
          · rfl
          · exact absurd (hrs hi) (by simp [hr])
        have IH := ih { s with responseSeen := true, inResponse := true, dataLength := 0 }
          (fun _ => rfl)
        constructor
        · intro hterm
          exact absurd hterm.1 (by simp [hr])
        · intro rid n hm
          rw [heq] at hm
          rcases List.mem_append.1 hm with hm | hm
          · simp at hm
          · have := IH.2 rid n hm
            rw [heq, dataSum_append, hin]
            simpa [dataSum, dataLenOf] using this
      · simpa [hr] using skip s [] (by simp [step, hr]) rfl rfl (by simp) rfl rfl rfl
    | push chunk =>
      cases chunk with
      | none => exact skip s [] rfl rfl rfl (by simp) rfl rfl rfl
      | some m =>
        cases hr : s.inResponse
        · simpa [hr] using skip s [] (by simp [step, hr]) rfl rfl (by simp) rfl rfl rfl
        · -- an active response accumulates the chunk and emits DataReceived
          have hstep : step p s (CanonEvent.push (some m))
              = ({ s with dataLength := s.dataLength + m },
                 [Record.dataReceived (toString p.id) m m]) := by
            simp [step, hr]
          have heq : runFrom p s (CanonEvent.push (some m) :: es)
              = [Record.dataReceived (toString p.id) m m]
                ++ runFrom p { s with dataLength := s.dataLength + m } es := by
            rw [runFrom_cons, hstep]
          have IH := ih { s with dataLength := s.dataLength + m }
            (by simpa using hrs)
          constructor
          · intro hterm
            exact absurd hterm.2 (by simp [hr])
          · intro rid n hm
            rw [heq] at hm
            rcases List.mem_append.1 hm with hm | hm
            · simp at hm
            · have := IH.2 rid n hm
              rw [heq, dataSum_append]
              simp [hr, dataSum, dataLenOf] at this ⊢
              omega
    | endEvt =>
      cases hr : s.inResponse
      · simpa [hr] using skip s [] (by simp [step, hr]) rfl rfl (by simp) rfl rfl rfl
      · -- the end of the response stream emits LoadingFinished with the counter
        have hstep : step p s CanonEvent.endEvt
            = ({ s with inResponse := false },
               [Record.loadingFinished (toString p.id) s.dataLength]) := by
          simp [step, hr]
        have heq : runFrom p s (CanonEvent.endEvt :: es)
            = [Record.loadingFinished (toString p.id) s.dataLength]
              ++ runFrom p { s with inResponse := false } es := by
          rw [runFrom_cons, hstep]
        have hrespSeen : s.responseSeen = true := hrs hr
        have IH := ih { s with inResponse := false } (by simp)
        have hrest := IH.1 (by simp [hrespSeen])
        constructor
        · intro hterm
          exact absurd hterm.2 (by simp [hr])
        · intro rid n hm
          rw [heq] at hm
          rcases List.mem_append.1 hm with hm | hm
          · simp at hm
            rw [heq, dataSum_append, hrest.1]
            simp [dataSum, dataLenOf, hm.2]
          · have hnone := List.countP_eq_zero.1 hrest.2 _ hm
            simp [isLoadingFinished] at hnone


/-- Claim C7: for every request that terminates with LoadingFinished, the sum of
the dataLength fields of all DataReceived records emitted for it equals the
encodedDataLength of its LoadingFinished record. -/
theorem c7_dataReceived_sum_eq_loadingFinished (p : TrackerParams) (es : List CanonEvent)
    (rid : String) (n : Nat) (h : Record.loadingFinished rid n ∈ runTracker p es) :
    n = dataSum (runTracker p es) := by
  have := (c7_aux p es initState (by simp [initState])).2 rid n h
  simpa [initState] using this

theorem c7_dataReceived_sum_eq_loadingFinished_witness :
    Record.loadingFinished "0" 10
        ∈ runTracker exParams [CanonEvent.responseEvt exResp, CanonEvent.push (some 3),
            CanonEvent.push (some 7), CanonEvent.endEvt]
    ∧ 10 = dataSum (runTracker exParams [CanonEvent.responseEvt exResp,
            CanonEvent.push (some 3), CanonEvent.push (some 7), CanonEvent.endEvt]) :=
  ⟨by decide,
   c7_dataReceived_sum_eq_loadingFinished exParams
     [CanonEvent.responseEvt exResp, CanonEvent.push (some 3), CanonEvent.push (some 7),
      CanonEvent.endEvt] "0" 10 (by decide)⟩

/-! ## Claim C8: the SummaryLog line format -/

/-- Claim C8 counterexample: the summary line the code builds for a
LoadingFinished record contains " Bytes \ttook " (a space before the tab),
not the " Bytes\ttook " of the claimed format, so at 10 bytes the emitted
line differs from the claimed one. -/
theorem c8_counterexample :
    logSummaryLine "0.100" "5.000" 0 (Record.loadingFinished "0" 10)
      = some "[0.100] 0 Network.loadingFinished 10 Bytes \ttook 5.000ms"
    ∧ logSummaryLine "0.100" "5.000" 0 (Record.loadingFinished "0" 10)
      ≠ some (specLoadingFinishedLine "0.100" "5.000" 0 10) := by
  exact ⟨by decide, by decide⟩

theorem summaryLines_length (elapsed durMs : String) (id : Nat) :
    ∀ rs : List Record,
    (rs.filterMap (logSummaryLine elapsed durMs id)).length = rs.countP summaryKind := by
  intro rs
  induction rs with
  | nil => rfl
  | cons r rs ih =>
    cases r <;>
      simp [logSummaryLine, summaryKind, isRequestWillBeSent, isLoadingFailed,
        isLoadingFinished, List.filterMap_cons, List.countP_cons, ih]

/-- Claim C8 amended: with SummaryLog enabled, exactly one log line is
produced per RequestWillBeSent, LoadingFailed or LoadingFinished record and
none for any other kind (in particular DataReceived and ResponseReceived);
the line is "[elapsed] requestId eventName detail" where detail is the URL
for RequestWillBeSent, the error text for LoadingFailed, and
"bytes Bytes \ttook msms" (with a space before the tab) for LoadingFinished. -/
theorem c8_summary_log_amended (elapsed durMs : String) (id : Nat) (rid t e : String)
    (c : Bool) (req : RequestData) (resp : ResponseData) (n dl edl : Nat)
    (rs : List Record) :
    logSummaryLine elapsed durMs id (Record.requestWillBeSent rid req)
      = some (summaryBase elapsed id "Network.requestWillBeSent" ++ " " ++ req.url)
    ∧ logSummaryLine elapsed durMs id (Record.loadingFailed rid t e c)
      = some (summaryBase elapsed id "Network.loadingFailed" ++ " " ++ e)
    ∧ logSummaryLine elapsed durMs id (Record.loadingFinished rid n)
      = some (summaryBase elapsed id "Network.loadingFinished" ++ " " ++ toString n
          ++ " Bytes \ttook " ++ durMs ++ "ms")
    ∧ logSummaryLine elapsed durMs id (Record.dataReceived rid dl edl) = none
    ∧ logSummaryLine elapsed durMs id (Record.responseReceived rid resp) = none
    ∧ (rs.filterMap (logSummaryLine elapsed durMs id)).length = rs.countP summaryKind :=
  ⟨rfl, rfl, rfl, rfl, rfl, summaryLines_length elapsed durMs id rs⟩

/-! ## Claim C9: stop() teardown and double stop -/

/-- Claim C9 counterexample: calling stop() twice logs the "Tracing stopped"
notification twice (there is no closed flag), so the claim that a second
stop() does not re-emit the stop notification is false. -/
theorem c9_counterexample :
    ((stopSession (stopSession (startSession ⟨[], false, []⟩ 0) 0) 0).log.countP
        (fun l => l == "Tracing stopped")) = 2
    ∧ ((stopSession (stopSession (startSession ⟨[], false, []⟩ 0) 0) 0).log.countP
        (fun l => l == "Tracing stopped")) ≠ 1 := by
  exact ⟨by decide, by decide⟩

/-- Claim C9 amended: stop() unregisters all eight hook subscriptions the
session registered and disconnects, leaving no subscription behind; a second
stop() does not throw and leaves the subscriptions unchanged (every
unsubscribe misses), but it logs the "Tracing stopped" notification again on
every call. -/
theorem c9_stop_amended (h : Nat) (lg : List String) :
    (stopSession (startSession ⟨[], false, lg⟩ h) h).subs = []
    ∧ (stopSession (startSession ⟨[], false, lg⟩ h) h).connected = false
    ∧ stopSession (stopSession (startSession ⟨[], false, lg⟩ h) h) h
        = { subs := [], connected := false
            log := lg ++ ["Tracing started", "Tracing stopped", "Tracing stopped"] } := by
  refine ⟨?_, rfl, ?_⟩ <;>
    simp [startSession, stopSession, sessionChannels, dcSubscribe, dcUnsubscribe,
      removeFirstSub]

/-! ## Claim C10: header mappings placed into protocol records -/

/-- A RequestWillBeSent record whose request headers contain a non-string
value. -/
def recordHasNonStringHeader : Record → Bool
  | Record.requestWillBeSent _ req => req.headers.any (fun kv => !(isStringHV kv.2))
  | _ => false

/-- Claim C10 counterexample: a request with a numeric header (Content-Length:
42) emits a RequestWillBeSent record whose request.headers still holds the
raw number (constructRequestInfo casts getHeaders() without mapHeaders), so
the claim that every header mapping placed into an emitted record contains
only string values is false. -/
theorem c10_counterexample :
    (runTracker numHeaderParams [CanonEvent.abortCall]).any
        (fun r => recordHasNonStringHeader r) = true
    ∧ Record.requestWillBeSent "1" (constructRequestInfo numHeaderParams)
        ∈ runTracker numHeaderParams [CanonEvent.abortCall]
    ∧ (constructRequestInfo numHeaderParams).headers
        = [("content-length", HeaderValue.num 42)] := by
  exact ⟨by decide, by decide, by decide⟩

theorem mapHeaders_eq_filter_map (hs : List (String × HeaderValue)) :
    mapHeaders hs
      = (hs.filter (fun kv => !(isUndefHV kv.2))).map (fun kv => (kv.1, hvToString kv.2)) := by
  induction hs with
  | nil => rfl
  | cons kv rest ih =>
    obtain ⟨k, v⟩ := kv
    cases hv : isUndefHV v <;> simp [mapHeaders, List.filter_cons, hv, ih]

theorem mapHeaders_mem (hs : List (String × HeaderValue)) (k v : String)
    (hmem : (k, v) ∈ mapHeaders hs) :
    ∃ v0, (k, v0) ∈ hs ∧ isUndefHV v0 = false ∧ v = hvToString v0 := by
  induction hs with
  | nil => simp [mapHeaders] at hmem
  | cons kv rest ih =>
    obtain ⟨k0, v0⟩ := kv
    by_cases hv : isUndefHV v0 = true
    · rw [mapHeaders, if_pos hv] at hmem
      obtain ⟨w, hw1, hw2, hw3⟩ := ih hmem
      exact ⟨w, by simp [hw1], hw2, hw3⟩
    · rw [mapHeaders, if_neg hv] at hmem
      rcases List.mem_cons.1 hmem with hmem | hmem
      · rw [Prod.mk.injEq] at hmem
        exact ⟨v0, by simp [hmem.1], by simpa using hv, hmem.2⟩
      · obtain ⟨w, hw1, hw2, hw3⟩ := ih hmem
        exact ⟨w, by simp [hw1], hw2, hw3⟩

/-- Claim C10 amended: mapHeaders keeps exactly the entries whose value is
defined and stringifies each kept value, so the header mappings built with it
(the response headers and the requestHeaders field of ResponseReceived)
contain only string values; the request.headers of RequestWillBeSent,
however, are the raw header values passed through unmapped. -/
theorem c10_headers_amended (hs : List (String × HeaderValue)) (p : TrackerParams)
    (resp : RespRaw) (k v : String) :
    mapHeaders hs
      = (hs.filter (fun kv => !(isUndefHV kv.2))).map (fun kv => (kv.1, hvToString kv.2))
    ∧ ((k, v) ∈ mapHeaders hs →
        ∃ v0, (k, v0) ∈ hs ∧ isUndefHV v0 = false ∧ v = hvToString v0)
    ∧ (constructResponseInfo p resp).headers = mapHeaders resp.rawHeaders
    ∧ (constructResponseInfo p resp).requestHeaders = mapHeaders p.rawRequestHeaders
    ∧ (constructRequestInfo p).headers = p.rawRequestHeaders :=
  ⟨mapHeaders_eq_filter_map hs, mapHeaders_mem hs k v, rfl, rfl, rfl⟩

theorem c10_headers_amended_witness :
    ("a", "1") ∈ mapHeaders [("a", HeaderValue.num 1), ("b", HeaderValue.undef)]
    ∧ ∃ v0, ("a", v0) ∈ [("a", HeaderValue.num 1), ("b", HeaderValue.undef)]
        ∧ isUndefHV v0 = false ∧ "1" = hvToString v0 :=
  ⟨by decide,
   (c10_headers_amended [("a", HeaderValue.num 1), ("b", HeaderValue.undef)] exParams
      exResp "a" "1").2.1 (by decide)⟩

end NodeNetworkInspect
